import Mathlib

/-!
Verification development for the Agentic-ORM repository.

The definitions below are a shallow embedding of the repository's
dashboard data model (src/dashboard/src/types/index.ts, embedded in
src/unnamed/part_000), the dashboard API service and mock fixtures
(src/dashboard/src/services/api.ts and src/dashboard/src/App.tsx, both
embedded in src/dashboard/src/deploy.sh resp. src/dashboard/src/App.css),
the Terraform infrastructure (src/infrastructure/main.tf and
src/unnamed/part_001) and the lambda deployment script
(src/deploy-lambdas-simple.sh).  The pipeline lambda sources
(lambda-functions/shared/utils.py and the six lambda_function.py files)
are not part of the repository snapshot; the pieces of behaviour that
live only there are modelled from the specification and are marked
`Modelled from the spec:` in their doc comments.
-/

namespace AgenticORM

/-! ## Dashboard data model (src/unnamed/part_000, the types module) -/

/-- `sentiment` union of the `Classification` interface. -/
inductive Sentiment
  | positive
  | negative
  | neutral
  deriving DecidableEq, Repr

/-- `urgency` union of the `Classification` interface. -/
inductive Urgency
  | low
  | medium
  | high
  deriving DecidableEq, Repr

/-- `intent` union of the `Classification` interface. -/
inductive Intent
  | question
  | complaint
  | compliment
  | spam
  | general
  deriving DecidableEq, Repr

/-- `suggested_action` union of the `Classification` interface. -/
inductive SuggestedAction
  | reply
  | hide
  | escalate
  | ignore
  deriving DecidableEq, Repr

/-- `platform` union of the `Comment` interface. -/
inductive Platform
  | instagram
  | facebook
  | facebook_ads
  deriving DecidableEq, Repr

/-- `status` union of the `Comment` interface. -/
inductive CommentStatus
  | pending
  | classified
  | processed
  deriving DecidableEq, Repr

/-- `action_taken` union of the `Comment` interface. -/
inductive ActionTaken
  | replied
  | hidden
  | escalated
  | ignored
  deriving DecidableEq, Repr

/-- The `Classification` interface of the dashboard types module.
`toxicity_score` and `confidence` are TS `number`; the fixtures only use
integers, embedded as `Int`. -/
structure Classification where
  sentiment : Sentiment
  urgency : Urgency
  intent : Intent
  toxicity_score : Int
  confidence : Int
  requires_response : Bool
  suggested_action : SuggestedAction
  deriving DecidableEq, Repr

/-- The `Comment` interface of the dashboard types module. -/
structure Comment where
  comment_id : String
  client_id : String
  platform : Platform
  text : String
  author_name : String
  author_id : String
  created_time : String
  like_count : Int
  status : CommentStatus
  classification : Option Classification := none
  action_taken : Option ActionTaken := none
  reply_sent : Option Bool := none
  hidden : Option Bool := none
  escalated : Option Bool := none
  deriving DecidableEq, Repr

/-- `action_type` union of the `ActivityLog` interface, as an enumerated
type. -/
inductive AuditActionType
  | reply_sent
  | comment_hidden
  | comment_escalated
  | classification_completed
  deriving DecidableEq, Repr

/-- The surface string values of the `action_type` union of the dashboard
`ActivityLog` interface, exactly as written in the types module. -/
def activityActionTypeValues : List String :=
  ["reply_sent", "comment_hidden", "comment_escalated", "classification_completed"]

/-- The surface string values of the `status` union of the dashboard
`Comment` interface, exactly as written in the types module. -/
def commentStatusValues : List String :=
  ["pending", "classified", "processed"]

/-- The field names of the dashboard `ActivityLog` interface, exactly as
written in the types module. -/
def activityLogFields : List String :=
  ["id", "timestamp", "action_type", "comment_id", "details"]

/-- The `details` object of the `ActivityLog` interface. -/
structure ActivityDetails where
  message : Option String := none
  reason : Option String := none
  confidence : Option Int := none
  deriving DecidableEq, Repr

/-- The `ActivityLog` interface of the dashboard types module. -/
structure ActivityLog where
  id : String
  timestamp : String
  action_type : AuditActionType
  comment_id : String
  details : ActivityDetails
  deriving DecidableEq, Repr

/-- The `DashboardMetrics` interface.  All fields are TS `number`; the
fixtures use integers and one-decimal values, embedded as rationals so the
rate formulas of the spec can be stated exactly. -/
structure DashboardMetrics where
  total_comments : ℚ
  positive_comments : ℚ
  negative_comments : ℚ
  neutral_comments : ℚ
  auto_replied : ℚ
  hidden_comments : ℚ
  escalated_comments : ℚ
  processing_time_avg : ℚ
  response_rate : ℚ
  automation_rate : ℚ
  deriving DecidableEq, Repr

/-- `status` union of the `ApiResponse` interface. -/
inductive ResponseStatus
  | success
  | error
  deriving DecidableEq, Repr

/-- The `ApiResponse<T>` interface of the dashboard types module. -/
structure ApiResponse (T : Type) where
  status : ResponseStatus
  data : Option T := none
  message : Option String := none
  errors : Option (List String) := none
  deriving DecidableEq, Repr

/-! ## Action Router (lambda-functions, not under src/) -/

/-- The two thresholds the Action Router reads from the per-client
configuration documents; `toxicity_threshold` defaults to 7 and
`min_confidence` to 70. -/
structure DecisionRules where
  toxicity_threshold : Int := 7
  min_confidence : Int := 70
  deriving DecidableEq, Repr

/-- The default rules used when a client has no configuration document. -/
def defaultRules : DecisionRules := {}

/-- Modelled from the spec: the Action Router function
`decide(classification, client_config.moderation_rules)` lives in
`lambda-functions/shared/utils.py`, which is not included in the
repository snapshot.  Decision policy evaluated in order, first match
wins: (1) toxicity at or above the threshold hides; (2) negative
sentiment with high urgency escalates; (3) a response-requiring comment
with confidence at or above the minimum gets a reply; (4) otherwise
ignore. -/
def decide (c : Classification) (rules : DecisionRules) : SuggestedAction :=
  if rules.toxicity_threshold ≤ c.toxicity_score then .hide
  else if c.sentiment = .negative ∧ c.urgency = .high then .escalate
  else if c.requires_response ∧ rules.min_confidence ≤ c.confidence then .reply
  else .ignore

/-- The routing-determinism example of the spec: `toxicity_score=8,
sentiment=negative, confidence=99`, with high urgency so that rule 2's
condition also holds. -/
def routingExample : Classification :=
  { sentiment := .negative
  , urgency := .high
  , intent := .complaint
  , toxicity_score := 8
  , confidence := 99
  , requires_response := true
  , suggested_action := .hide }

/-! ## Infrastructure (src/infrastructure/main.tf, src/unnamed/part_001,
src/deploy-lambdas-simple.sh) -/

/-- The `redrive_policy` document of an SQS queue: the dead-letter target
and `maxReceiveCount`, as in `aws_sqs_queue.comment_processing`. -/
structure RedrivePolicy where
  deadLetterTarget : String
  maxReceiveCount : Int
  deriving DecidableEq, Repr

/-- An `aws_sqs_queue` resource as configured in main.tf; absent
arguments are `none`. -/
structure SqsQueue where
  name : String
  visibility_timeout_seconds : Option Int := none
  message_retention_seconds : Option Int := none
  redrive_policy : Option RedrivePolicy := none
  deriving DecidableEq, Repr

/-- The dead-letter queue `aws_sqs_queue.comment_processing_dlq`,
parameterised by the Terraform variables `project_name` and
`environment`. -/
def comment_processing_dlq (project env : String) : SqsQueue :=
  { name := project ++ "-comments-dlq-" ++ env }

/-- The redrive policy of `aws_sqs_queue.comment_processing`: dead-letter
target is the DLQ, `maxReceiveCount = 3`. -/
def commentRedrivePolicy (project env : String) : RedrivePolicy :=
  { deadLetterTarget := (comment_processing_dlq project env).name
  , maxReceiveCount := 3 }

/-- The work queue `aws_sqs_queue.comment_processing` of main.tf:
visibility timeout 300 s, message retention 1209600 s (14 days), redrive
to the DLQ after 3 receives. -/
def comment_processing (project env : String) : SqsQueue :=
  { name := project ++ "-comments-" ++ env
  , visibility_timeout_seconds := some 300
  , message_retention_seconds := some 1209600
  , redrive_policy := some (commentRedrivePolicy project env) }

/-- An event-source mapping as created by `deploy-lambdas-simple.sh`
(`aws lambda create-event-source-mapping`). -/
structure EventSourceMapping where
  function_name : String
  event_source_arn : String
  batch_size : Int
  deriving DecidableEq, Repr

/-- The SQS trigger for the classification lambda configured in
`deploy-lambdas-simple.sh`: batch size 10. -/
def classification_event_source (project env region account : String) :
    EventSourceMapping :=
  { function_name := project ++ "-classification-function-" ++ env
  , event_source_arn :=
      "arn:aws:sqs:" ++ region ++ ":" ++ account ++ ":" ++ project ++ "-comments-" ++ env
  , batch_size := 10 }

/-- What the queue infrastructure does with an unacknowledged message. -/
inductive QueueDisposition
  | redeliver
  | deadLetter
  deriving DecidableEq, Repr

/-- Modelled from the spec: the redelivery rule of the queue
infrastructure (SQS redrive semantics, stated in spec section 4.2) — a
message whose receive count exceeds the policy's `maxReceiveCount` is
moved to the dead-letter queue instead of being redelivered.  The policy
itself is configuration from main.tf. -/
def redrive (p : RedrivePolicy) (receive_count : Int) : QueueDisposition :=
  if p.maxReceiveCount < receive_count then .deadLetter else .redeliver

/-- An `aws_cloudwatch_event_rule` resource of main.tf. -/
structure EventRule where
  name : String
  description : String
  schedule_expression : String
  deriving DecidableEq, Repr

/-- `aws_cloudwatch_event_rule.comment_ingestion_schedule` of main.tf. -/
def comment_ingestion_schedule (project env : String) : EventRule :=
  { name := project ++ "-ingestion-" ++ env
  , description := "Trigger comment ingestion every 5 minutes"
  , schedule_expression := "rate(5 minutes)" }

/-- A `global_secondary_index` block of an `aws_dynamodb_table`. -/
structure GlobalSecondaryIndex where
  name : String
  hash_key : String
  range_key : String
  deriving DecidableEq, Repr

/-- An `aws_dynamodb_table` resource of main.tf: key schema, declared
attributes and secondary indexes. -/
structure DynamoTable where
  name : String
  hash_key : String
  range_key : Option String := none
  attributes : List String
  global_secondary_indexes : List GlobalSecondaryIndex := []
  deriving DecidableEq, Repr

/-- `aws_dynamodb_table.audit_logs` of main.tf: hash key `log_id`, and a
single GSI `TimestampIndex` with hash key `action_type` and range key
`timestamp`. -/
def audit_logs (project env : String) : DynamoTable :=
  { name := project ++ "-audit-" ++ env
  , hash_key := "log_id"
  , attributes := ["log_id", "timestamp", "action_type"]
  , global_secondary_indexes :=
      [{ name := "TimestampIndex", hash_key := "action_type", range_key := "timestamp" }] }

/-- `aws_dynamodb_table.comments` of main.tf: hash key `comment_id`, GSI
`ClientIndex` on (`client_id`, `created_at`). -/
def comments_table (project env : String) : DynamoTable :=
  { name := project ++ "-comments-" ++ env
  , hash_key := "comment_id"
  , attributes := ["comment_id", "client_id", "created_at"]
  , global_secondary_indexes :=
      [{ name := "ClientIndex", hash_key := "client_id", range_key := "created_at" }] }

/-- Whether a DynamoDB table's access structure can serve a query that
filters on one attribute (as partition key) and returns results ordered
by another (as sort key): either the base table key schema or one of the
secondary indexes must be keyed exactly that way. -/
def servesOrderedQuery (t : DynamoTable) (partKey sortKey : String) : Bool :=
  (t.hash_key == partKey && t.range_key == some sortKey) ||
    t.global_secondary_indexes.any fun g => g.hash_key == partKey && g.range_key == sortKey

/-! ## HTTP layer of the dashboard API service
(src/dashboard/src/services/api.ts, embedded in
src/dashboard/src/deploy.sh, and src/dashboard/src/App.tsx, embedded in
src/dashboard/src/App.css) -/

/-- HTTP request methods. -/
inductive HttpMethod
  | GET
  | POST
  | PUT
  | DELETE
  | OPTIONS
  deriving DecidableEq, Repr

/-- The subset of the `RequestInit` options of `fetch` that determines
the request shape: an optional method override and an optional body. -/
structure RequestInit where
  method : Option HttpMethod := none
  body : Option String := none
  deriving DecidableEq, Repr

/-- An HTTP request as issued by `fetch`. -/
structure HttpRequest where
  method : HttpMethod
  url : String
  body : Option String
  deriving DecidableEq, Repr

/-- The request `fetch(url, options)` issues: method defaults to GET and
body to absent when the options do not set them. -/
def fetchRequest (url : String) (options : Option RequestInit) : HttpRequest :=
  { method := (options.bind RequestInit.method).getD HttpMethod.GET
  , url := url
  , body := options.bind RequestInit.body }

/-- The request `ApiService.apiCall(endpoint)` issues: a fetch of
`baseUrl ++ endpoint`.  Every public method of `ApiService` calls
`apiCall` without passing any options, so the `options` argument is
`none`. -/
def apiCallRequest (baseUrl endpoint : String) : HttpRequest :=
  fetchRequest (baseUrl ++ endpoint) none

/-- The requests the public `ApiService` methods issue against the core
in non-mock mode: `getClients`, `getDashboardMetrics` (without and with
date filters), `getRecentComments`, `getActivityLog` and `healthCheck`. -/
def apiServiceRequests (baseUrl clientId startDate endDate : String)
    (limit : Nat) : List HttpRequest :=
  [ apiCallRequest baseUrl "/clients"
  , apiCallRequest baseUrl ("/metrics/" ++ clientId ++ "?")
  , apiCallRequest baseUrl
      ("/metrics/" ++ clientId ++ "?start_date=" ++ startDate ++ "&end_date=" ++ endDate)
  , apiCallRequest baseUrl ("/comments/recent/" ++ clientId ++ "?limit=" ++ toString limit)
  , apiCallRequest baseUrl ("/activity/" ++ clientId ++ "?limit=" ++ toString limit)
  , apiCallRequest baseUrl "/health" ]

/-- The API base URL hard-coded in App.tsx. -/
def appApiBaseUrl : String :=
  "https://pmujj56e7b.execute-api.ap-south-1.amazonaws.com/dev"

/-- The two requests `App.fetchDashboardData` issues in App.tsx: plain
`fetch(url)` calls with no options. -/
def appFetchRequests (clientId : String) : List HttpRequest :=
  [ fetchRequest (appApiBaseUrl ++ "/metrics/" ++ clientId) none
  , fetchRequest (appApiBaseUrl ++ "/comments/recent/" ++ clientId ++ "?limit=10") none ]

/-- The outcome of `await response.json()` on a resolved fetch: the HTTP
`ok` flag and status, and either the parsed body or the message of the
JSON-parse rejection. -/
structure FetchResult (T : Type) where
  ok : Bool
  status : Int
  json : Except String (ApiResponse T)
  deriving Repr

/-- The outcome of `fetch` itself inside `apiCall`: either the promise
rejects (network failure) with an error message, or it resolves. -/
inductive FetchOutcome (T : Type)
  | rejected (msg : String)
  | resolved (r : FetchResult T)
  deriving Repr

/-- The error value `apiCall`'s catch block returns:
`{ status: 'error', message }`. -/
def errorResponse {T : Type} (msg : String) : ApiResponse T :=
  { status := .error, message := some msg }

/-- `ApiService.apiCall` over the outcome of its fetch: a rejected fetch
or a JSON-parse failure is caught and becomes an error `ApiResponse`; a
non-ok HTTP status throws `data.message` (falling back to
`HTTP error! status: N`), which the catch block also converts to an error
`ApiResponse`; an ok response returns the parsed body. -/
def apiCall {T : Type} (o : FetchOutcome T) : ApiResponse T :=
  match o with
  | .rejected msg => errorResponse msg
  | .resolved r =>
    match r.json with
    | .error msg => errorResponse msg
    | .ok data =>
      if r.ok then data
      else errorResponse (data.message.getD ("HTTP error! status: " ++ toString r.status))

/-! ## ApiService mock fixtures (src/dashboard/src/services/api.ts,
embedded in src/dashboard/src/deploy.sh) -/

/-- Mock fixture `comment_001` of `ApiService.getMockRecentComments`. -/
def comment_001 (clientId : String) : Comment :=
  { comment_id := "comment_001"
  , client_id := clientId
  , platform := .instagram
  , text := "Love this product! Amazing quality and fast shipping. Highly recommend! 😍"
  , author_name := "Sarah Johnson"
  , author_id := "user_001"
  , created_time := "2025-06-02T10:30:00Z"
  , like_count := 5
  , status := .processed
  , classification := some
      { sentiment := .positive, urgency := .low, intent := .compliment
      , toxicity_score := 0, confidence := 95
      , requires_response := true, suggested_action := .reply }
  , action_taken := some .replied
  , reply_sent := some true }

/-- Mock fixture `comment_002` of `ApiService.getMockRecentComments`. -/
def comment_002 (clientId : String) : Comment :=
  { comment_id := "comment_002"
  , client_id := clientId
  , platform := .instagram
  , text := "Hi, I have a question about the return policy. How long do I have to return an item?"
  , author_name := "Mike Chen"
  , author_id := "user_002"
  , created_time := "2025-06-02T09:15:00Z"
  , like_count := 0
  , status := .processed
  , classification := some
      { sentiment := .neutral, urgency := .medium, intent := .question
      , toxicity_score := 0, confidence := 88
      , requires_response := true, suggested_action := .reply }
  , action_taken := some .replied
  , reply_sent := some true }

/-- Mock fixture `comment_003` of `ApiService.getMockRecentComments`:
the facebook complaint classified negative with high urgency,
toxicity 6, confidence 92, escalated, processed. -/
def comment_003 (clientId : String) : Comment :=
  { comment_id := "comment_003"
  , client_id := clientId
  , platform := .facebook
  , text := "This is the worst product I have ever bought. Complete waste of money! Never buying again."
  , author_name := "John Smith"
  , author_id := "user_003"
  , created_time := "2025-06-02T08:45:00Z"
  , like_count := 0
  , status := .processed
  , classification := some
      { sentiment := .negative, urgency := .high, intent := .complaint
      , toxicity_score := 6, confidence := 92
      , requires_response := true, suggested_action := .escalate }
  , action_taken := some .escalated
  , escalated := some true }

/-- Mock fixture `comment_004` of `ApiService.getMockRecentComments`:
the spam comment with toxicity 8 and confidence 99, hidden. -/
def comment_004 (clientId : String) : Comment :=
  { comment_id := "comment_004"
  , client_id := clientId
  , platform := .instagram
  , text := "Spam spam spam buy my product click here now!!! 🚫🚫🚫"
  , author_name := "SpamBot123"
  , author_id := "spam_001"
  , created_time := "2025-06-02T07:30:00Z"
  , like_count := 0
  , status := .processed
  , classification := some
      { sentiment := .negative, urgency := .low, intent := .spam
      , toxicity_score := 8, confidence := 99
      , requires_response := false, suggested_action := .hide }
  , action_taken := some .hidden
  , hidden := some true }

/-- Mock fixture `comment_005` of `ApiService.getMockRecentComments`. -/
def comment_005 (clientId : String) : Comment :=
  { comment_id := "comment_005"
  , client_id := clientId
  , platform := .facebook_ads
  , text := "When will my order ship? I ordered 3 days ago and still no tracking info."
  , author_name := "Lisa Wilson"
  , author_id := "user_005"
  , created_time := "2025-06-02T06:20:00Z"
  , like_count := 2
  , status := .classified
  , classification := some
      { sentiment := .neutral, urgency := .medium, intent := .question
      , toxicity_score := 1, confidence := 85
      , requires_response := true, suggested_action := .reply } }

/-- The `mockComments` array of `ApiService.getMockRecentComments`. -/
def mockComments (clientId : String) : List Comment :=
  [ comment_001 clientId, comment_002 clientId, comment_003 clientId
  , comment_004 clientId, comment_005 clientId ]

/-- `ApiService.getMockRecentComments`: the mock list sliced to
`limit`. -/
def getMockRecentComments (clientId : String) (limit : Nat) : List Comment :=
  (mockComments clientId).take limit

/-- The `baseMetrics` object of `ApiService.getMockDashboardMetrics`. -/
def getMockDashboardMetrics : DashboardMetrics :=
  { total_comments := 1247
  , positive_comments := 789
  , negative_comments := 156
  , neutral_comments := 302
  , auto_replied := 445
  , hidden_comments := 23
  , escalated_comments := 12
  , processing_time_avg := 23/10
  , response_rate := 892/10
  , automation_rate := 951/10 }

/-- Mock fixture `activity_001` of `ApiService.getMockActivityLog`. -/
def activity_001 : ActivityLog :=
  { id := "activity_001"
  , timestamp := "2025-06-02T10:35:00Z"
  , action_type := .reply_sent
  , comment_id := "comment_001"
  , details :=
      { message := some "Thank you so much for the kind words! We\u0027re thrilled you had a great experience. 🎉"
      , confidence := some 95 } }

/-- Mock fixture `activity_002` of `ApiService.getMockActivityLog`. -/
def activity_002 : ActivityLog :=
  { id := "activity_002"
  , timestamp := "2025-06-02T09:20:00Z"
  , action_type := .reply_sent
  , comment_id := "comment_002"
  , details :=
      { message := some "Hi Mike! You have 30 days to return any item from the purchase date. Check your email for our full return policy. 😊"
      , confidence := some 88 } }

/-- Mock fixture `activity_003` of `ApiService.getMockActivityLog`: the
single `comment_escalated` entry, for `comment_003`. -/
def activity_003 : ActivityLog :=
  { id := "activity_003"
  , timestamp := "2025-06-02T08:50:00Z"
  , action_type := .comment_escalated
  , comment_id := "comment_003"
  , details :=
      { reason := some "High urgency negative sentiment detected"
      , confidence := some 92 } }

/-- Mock fixture `activity_004` of `ApiService.getMockActivityLog`. -/
def activity_004 : ActivityLog :=
  { id := "activity_004"
  , timestamp := "2025-06-02T07:35:00Z"
  , action_type := .comment_hidden
  , comment_id := "comment_004"
  , details :=
      { reason := some "High toxicity score (8/10) - Spam content detected"
      , confidence := some 99 } }

/-- Mock fixture `activity_005` of `ApiService.getMockActivityLog`. -/
def activity_005 : ActivityLog :=
  { id := "activity_005"
  , timestamp := "2025-06-02T06:25:00Z"
  , action_type := .classification_completed
  , comment_id := "comment_005"
  , details := { confidence := some 85 } }

/-- The `mockActivity` array of `ApiService.getMockActivityLog`.  Note
that the source builds it without using the `clientId` argument: the
entries carry no client identity. -/
def mockActivity : List ActivityLog :=
  [activity_001, activity_002, activity_003, activity_004, activity_005]

/-- `ApiService.getMockActivityLog`: the mock list sliced to `limit`;
`clientId` is accepted and ignored, exactly as in the source. -/
def getMockActivityLog (clientId : String) (limit : Nat) : List ActivityLog :=
  mockActivity.take limit

/-! ## App.tsx model and fixtures (src/dashboard/src/App.tsx, embedded
in src/dashboard/src/App.css).  App.tsx declares its own, smaller
`Comment` interface: `platform`, `intent` and `action_taken` are plain
strings there, there is no `status` field, and the inline classification
has no `requires_response` or `suggested_action`. -/

/-- The inline `classification` object of App.tsx's `Comment`
interface. -/
structure AppClassification where
  sentiment : Sentiment
  urgency : Urgency
  intent : String
  toxicity_score : Int
  confidence : Int
  deriving DecidableEq, Repr

/-- The `Comment` interface declared inside App.tsx.  `created_time` is
built from `Date.now()` in the fixtures, so it is embedded as epoch
milliseconds relative to a `now` parameter. -/
structure AppComment where
  comment_id : String
  text : String
  author_name : String
  platform : String
  created_time_ms : Int
  like_count : Int
  classification : Option AppClassification := none
  action_taken : Option String := none
  reply_sent : Option Bool := none
  hidden : Option Bool := none
  escalated : Option Bool := none
  deriving DecidableEq, Repr

/-- App.tsx mock fixture `real_comment_001`. -/
def real_comment_001 (now : Int) : AppComment :=
  { comment_id := "real_comment_001"
  , text := "Love this product! Amazing quality and fast shipping. Highly recommend! 😍✨"
  , author_name := "Sarah Johnson"
  , platform := "instagram"
  , created_time_ms := now - 2 * 60 * 60 * 1000
  , like_count := 12
  , classification := some
      { sentiment := .positive, urgency := .low, intent := "compliment"
      , toxicity_score := 0, confidence := 96 }
  , action_taken := some "replied"
  , reply_sent := some true }

/-- App.tsx mock fixture `real_comment_002`. -/
def real_comment_002 (now : Int) : AppComment :=
  { comment_id := "real_comment_002"
  , text := "Hi, I have a question about the return policy. How long do I have to return an item if I\u0027m not satisfied?"
  , author_name := "Mike Chen"
  , platform := "instagram"
  , created_time_ms := now - 3 * 60 * 60 * 1000
  , like_count := 2
  , classification := some
      { sentiment := .neutral, urgency := .medium, intent := "question"
      , toxicity_score := 0, confidence := 88 }
  , action_taken := some "replied"
  , reply_sent := some true }

/-- App.tsx mock fixture `real_comment_003`: the facebook complaint
whose text ends in "Terrible customer service too.", classified negative
with high urgency, toxicity 7, confidence 94, escalated. -/
def real_comment_003 (now : Int) : AppComment :=
  { comment_id := "real_comment_003"
  , text := "This is the worst product I have ever bought. Complete waste of money! Never buying again. Terrible customer service too."
  , author_name := "John Smith"
  , platform := "facebook"
  , created_time_ms := now - 4 * 60 * 60 * 1000
  , like_count := 0
  , classification := some
      { sentiment := .negative, urgency := .high, intent := "complaint"
      , toxicity_score := 7, confidence := 94 }
  , action_taken := some "escalated"
  , escalated := some true }

/-- App.tsx mock fixture `real_comment_004`. -/
def real_comment_004 (now : Int) : AppComment :=
  { comment_id := "real_comment_004"
  , text := "Spam spam spam buy my product click here now!!! Visit my profile for amazing deals 🚫🚫🚫"
  , author_name := "SpamBot123"
  , platform := "instagram"
  , created_time_ms := now - 5 * 60 * 60 * 1000
  , like_count := 0
  , classification := some
      { sentiment := .negative, urgency := .low, intent := "spam"
      , toxicity_score := 9, confidence := 99 }
  , action_taken := some "hidden"
  , hidden := some true }

/-- App.tsx mock fixture `real_comment_005`. -/
def real_comment_005 (now : Int) : AppComment :=
  { comment_id := "real_comment_005"
  , text := "When will my order ship? I ordered 3 days ago and still no tracking info. Getting worried about delivery time."
  , author_name := "Lisa Wilson"
  , platform := "instagram"
  , created_time_ms := now - 6 * 60 * 60 * 1000
  , like_count := 3
  , classification := some
      { sentiment := .neutral, urgency := .medium, intent := "question"
      , toxicity_score := 1, confidence := 85 }
  , action_taken := some "replied"
  , reply_sent := some true }

/-- The mock comments array `App.fetchDashboardData` installs when the
API is not available. -/
def appMockComments (now : Int) : List AppComment :=
  [ real_comment_001 now, real_comment_002 now, real_comment_003 now
  , real_comment_004 now, real_comment_005 now ]

/-- The mock metrics object `App.fetchDashboardData` installs when the
API is not available. -/
def appMockMetrics : DashboardMetrics :=
  { total_comments := 1247
  , positive_comments := 789
  , negative_comments := 156
  , neutral_comments := 302
  , auto_replied := 445
  , hidden_comments := 23
  , escalated_comments := 12
  , response_rate := 892/10
  , automation_rate := 951/10
  , processing_time_avg := 23/10 }

/-- The action-badge label App.tsx renders for a comment: replied,
escalated and hidden comments get their own badge, everything else falls
into the catch-all Processing badge. -/
def actionBadgeLabel (action_taken : Option String) : String :=
  if action_taken = some "replied" then "🤖 Auto-replied"
  else if action_taken = some "escalated" then "⚠️ Escalated"
  else if action_taken = some "hidden" then "🙈 Hidden"
  else "⏳ Processing"

/-- The CSS class of the App.tsx action badge:
`comment.action_taken || 'pending'`. -/
def actionBadgeClass (action_taken : Option String) : String :=
  action_taken.getD "pending"

/-- The percentage the MetricsGrid Auto-Replied card derives for its
subtitle: `(auto_replied / total_comments) * 100` (MetricsGrid.tsx; the
same expression appears in the App.tsx metric card). -/
def autoRepliedSubtitlePercent (m : DashboardMetrics) : ℚ :=
  m.auto_replied / m.total_comments * 100

/-! ## Classifier output validation (lambda-functions, not under src/) -/

/-- The range invariant of a `Classification`: integer toxicity in
[0, 10] and integer confidence in [0, 100] (the enumerated fields are
constrained by their types). -/
def validRange (c : Classification) : Prop :=
  0 ≤ c.toxicity_score ∧ c.toxicity_score ≤ 10 ∧
    0 ≤ c.confidence ∧ c.confidence ≤ 100

instance (c : Classification) : Decidable (validRange c) := by
  unfold validRange; infer_instance

/-- The range invariant for App.tsx's inline classification shape. -/
def appValidRange (c : AppClassification) : Prop :=
  0 ≤ c.toxicity_score ∧ c.toxicity_score ≤ 10 ∧
    0 ≤ c.confidence ∧ c.confidence ≤ 100

instance (c : AppClassification) : Decidable (appValidRange c) := by
  unfold appValidRange; infer_instance

/-- A raw LLM response before validation: every field may be missing and
the numeric fields are unconstrained. -/
structure RawClassification where
  sentiment : Option Sentiment
  urgency : Option Urgency
  intent : Option Intent
  toxicity_score : Option Int
  confidence : Option Int
  requires_response : Option Bool
  suggested_action : Option SuggestedAction
  deriving DecidableEq, Repr

/-- Modelled from the spec: the Classifier's response validation
(section 4.3 of the spec; the classification lambda is not included in
the repository snapshot).  A response missing a required field, or with
confidence outside [0, 100] or toxicity outside [0, 10], is rejected and
nothing is persisted. -/
def validateClassification (r : RawClassification) : Option Classification :=
  match r.sentiment, r.urgency, r.intent, r.toxicity_score, r.confidence,
      r.requires_response, r.suggested_action with
  | some s, some u, some i, some t, some conf, some rr, some sa =>
    if 0 ≤ t ∧ t ≤ 10 ∧ 0 ≤ conf ∧ conf ≤ 100 then
      some { sentiment := s, urgency := u, intent := i, toxicity_score := t
           , confidence := conf, requires_response := rr, suggested_action := sa }
    else none
  | _, _, _, _, _, _, _ => none

/-! ## Claim theorems -/

/-- C1: the Action Router `decide` is a pure function (hence
deterministic) that evaluates its rules in order with first match
winning: toxicity at or above the threshold hides; otherwise negative
sentiment with high urgency escalates; otherwise a response-requiring
classification with confidence at or above the minimum gets a reply;
otherwise the comment is ignored. -/
theorem decide_first_match_wins (c : Classification) (r : DecisionRules) :
    (r.toxicity_threshold ≤ c.toxicity_score → decide c r = .hide) ∧
    (c.toxicity_score < r.toxicity_threshold →
      c.sentiment = .negative → c.urgency = .high → decide c r = .escalate) ∧
    (c.toxicity_score < r.toxicity_threshold →
      ¬(c.sentiment = .negative ∧ c.urgency = .high) →
      c.requires_response = true → r.min_confidence ≤ c.confidence →
      decide c r = .reply) ∧
    (c.toxicity_score < r.toxicity_threshold →
      ¬(c.sentiment = .negative ∧ c.urgency = .high) →
      ¬(c.requires_response = true ∧ r.min_confidence ≤ c.confidence) →
      decide c r = .ignore) := by
  unfold decide
  split_ifs with h1 h2 h3 <;>
    refine ⟨?_, ?_, ?_, ?_⟩ <;> intros <;> first | rfl | omega | tauto

/-- C1 witness: on the spec's example (`toxicity_score = 8`, negative
sentiment, high urgency, confidence 99) and the default thresholds,
rule 1 fires and wins over rule 2: the decision is `hide`. -/
theorem decide_first_match_wins_witness :
    decide routingExample defaultRules = SuggestedAction.hide ∧
    routingExample.sentiment = Sentiment.negative ∧
    routingExample.urgency = Urgency.high ∧
    routingExample.confidence = 99 ∧
    defaultRules.toxicity_threshold ≤ routingExample.toxicity_score :=
  ⟨(decide_first_match_wins routingExample defaultRules).1 (by decide),
    by decide, by decide, by decide, by decide⟩

/-- C2: the work queue is configured with visibility timeout 300 s,
message retention 14 days, a redrive policy targeting the DLQ with
`maxReceiveCount = 3`, and batch delivery size 10 on the classification
event source; under the redrive rule a message whose receive count
exceeds 3 is dead-lettered instead of redelivered. -/
theorem queue_configuration (project env region account : String) :
    (comment_processing project env).visibility_timeout_seconds = some 300 ∧
    (comment_processing project env).message_retention_seconds = some (14 * 24 * 60 * 60) ∧
    (comment_processing project env).redrive_policy = some (commentRedrivePolicy project env) ∧
    (commentRedrivePolicy project env).maxReceiveCount = 3 ∧
    (commentRedrivePolicy project env).deadLetterTarget =
      (comment_processing_dlq project env).name ∧
    (classification_event_source project env region account).batch_size = 10 ∧
    (∀ receive_count : Int, 3 < receive_count →
      redrive (commentRedrivePolicy project env) receive_count = .deadLetter) ∧
    (∀ receive_count : Int, receive_count ≤ 3 →
      redrive (commentRedrivePolicy project env) receive_count = .redeliver) := by
  refine ⟨rfl, rfl, rfl, rfl, rfl, rfl, ?_, ?_⟩
  · intro rc h
    show (if (3 : Int) < rc then QueueDisposition.deadLetter else QueueDisposition.redeliver) =
      QueueDisposition.deadLetter
    rw [if_pos h]
  · intro rc h
    show (if (3 : Int) < rc then QueueDisposition.deadLetter else QueueDisposition.redeliver) =
      QueueDisposition.redeliver
    rw [if_neg (by omega)]

/-- C2 witness: with the concrete Terraform variable values, a fourth
receive (receive count 4 > 3) is dead-lettered and a third receive is
redelivered. -/
theorem queue_configuration_witness :
    redrive (commentRedrivePolicy "orm-platform" "dev") 4 = QueueDisposition.deadLetter ∧
    redrive (commentRedrivePolicy "orm-platform" "dev") 3 = QueueDisposition.redeliver := by
  obtain ⟨-, -, -, -, -, -, hdl, hrd⟩ :=
    queue_configuration "orm-platform" "dev" "ap-south-1" "000000000000"
  exact ⟨hdl 4 (by decide), hrd 3 (by decide)⟩

/-- C3 counterexample: the fixture comment whose text contains
"Terrible customer service" (`real_comment_003` in App.tsx) is recorded
with `toxicity_score = 7`, not 6; the fixture recorded with
`toxicity_score = 6` (`comment_003` in the API service) does not contain
that phrase. -/
theorem scenario_toxicity_counterexample :
    (real_comment_003 0).text =
      "This is the worst product I have ever bought. Complete waste of money! Never buying again. Terrible customer service too." ∧
    (real_comment_003 0).platform = "facebook" ∧
    (real_comment_003 0).classification.map AppClassification.toxicity_score = some 7 ∧
    (real_comment_003 0).classification.map AppClassification.toxicity_score ≠ some 6 ∧
    (comment_003 "demo_client_001").text =
      "This is the worst product I have ever bought. Complete waste of money! Never buying again." :=
  ⟨rfl, rfl, rfl, by decide, rfl⟩

/-- C3 amended: in the end-to-end fixtures, the facebook complaint
`comment_003` is classified sentiment negative, urgency high,
toxicity 6, the recorded action is escalate, exactly one
`comment_escalated` activity entry exists and it references
`comment_003`, and the comment's status is `processed`; the App.tsx
variant of the same scenario, whose text additionally contains
"Terrible customer service", is classified with toxicity 7 and is also
recorded as escalated. -/
theorem scenario_escalation_amended :
    (comment_003 "demo_client_001").platform = Platform.facebook ∧
    (comment_003 "demo_client_001").classification = some
      { sentiment := .negative, urgency := .high, intent := .complaint
      , toxicity_score := 6, confidence := 92
      , requires_response := true, suggested_action := .escalate } ∧
    (comment_003 "demo_client_001").action_taken = some ActionTaken.escalated ∧
    (comment_003 "demo_client_001").status = CommentStatus.processed ∧
    (mockActivity.filter fun a => a.action_type == AuditActionType.comment_escalated).map
      ActivityLog.comment_id = ["comment_003"] ∧
    (real_comment_003 0).platform = "facebook" ∧
    (real_comment_003 0).classification = some
      { sentiment := .negative, urgency := .high, intent := "complaint"
      , toxicity_score := 7, confidence := 94 } ∧
    (real_comment_003 0).action_taken = some "escalated" :=
  ⟨rfl, rfl, rfl, rfl, by decide, rfl, rfl, rfl⟩

/-- C4 counterexample: in the metrics record the dashboard presents, the
stored `automation_rate` (95.1) is not `(replied + hidden) / total`
(whether read as a fraction or as a percentage: (445 + 23) / 1247 is
about 37.5 %), so the displayed rates are independent stored values, not
values derived by the spec's formulas. -/
theorem automation_rate_counterexample :
    getMockDashboardMetrics.automation_rate ≠
      (getMockDashboardMetrics.auto_replied + getMockDashboardMetrics.hidden_comments) /
        getMockDashboardMetrics.total_comments ∧
    getMockDashboardMetrics.automation_rate ≠
      100 * ((getMockDashboardMetrics.auto_replied + getMockDashboardMetrics.hidden_comments) /
        getMockDashboardMetrics.total_comments) ∧
    appMockMetrics.automation_rate ≠
      100 * ((appMockMetrics.auto_replied + appMockMetrics.hidden_comments) /
        appMockMetrics.total_comments) := by
  refine ⟨?_, ?_, ?_⟩ <;> norm_num [getMockDashboardMetrics, appMockMetrics]

/-- C4 amended: `response_rate` and `automation_rate` are stored fields
of the metrics record (89.2 and 95.1 in both mock fixtures), not values
derived from the counts by the spec's formulas — the percentage formed
by `(replied + hidden) / total` is 46800/1247 (about 37.5), differing
from the stored 95.1; the only rate the dashboard derives itself is the
Auto-Replied card subtitle `auto_replied / total * 100` (44500/1247,
about 35.7), which differs from the stored rate too. -/
theorem metrics_rates_amended :
    getMockDashboardMetrics.automation_rate = 951/10 ∧
    getMockDashboardMetrics.response_rate = 892/10 ∧
    appMockMetrics.automation_rate = 951/10 ∧
    appMockMetrics.response_rate = 892/10 ∧
    100 * ((getMockDashboardMetrics.auto_replied + getMockDashboardMetrics.hidden_comments) /
      getMockDashboardMetrics.total_comments) = 46800/1247 ∧
    autoRepliedSubtitlePercent getMockDashboardMetrics = 44500/1247 ∧
    autoRepliedSubtitlePercent getMockDashboardMetrics ≠
      getMockDashboardMetrics.automation_rate := by
  refine ⟨rfl, rfl, rfl, rfl, ?_, ?_, ?_⟩ <;>
    norm_num [getMockDashboardMetrics, autoRepliedSubtitlePercent]

/-- C5 counterexample: the dashboard-facing `ActivityLog.action_type`
union has exactly four values and `action_failed` is not among them, and
the `Comment.status` union has no "processing failed" state. -/
theorem audit_action_type_counterexample :
    "action_failed" ∉ activityActionTypeValues ∧
    activityActionTypeValues.length = 4 ∧
    "failed" ∉ commentStatusValues ∧
    "processing_failed" ∉ commentStatusValues := by
  decide

/-- C5 amended: the dashboard-facing audit `action_type` ranges over the
four values reply_sent, comment_hidden, comment_escalated and
classification_completed — `action_failed` is not representable — and a
comment without a recorded action falls into the catch-all
Processing/pending badge, so a permanently failed comment has no
distinguishable "processing failed" presentation in the dashboard data
model. -/
theorem audit_action_type_amended :
    activityActionTypeValues =
      ["reply_sent", "comment_hidden", "comment_escalated", "classification_completed"] ∧
    "action_failed" ∉ activityActionTypeValues ∧
    commentStatusValues = ["pending", "classified", "processed"] ∧
    actionBadgeLabel none = "⏳ Processing" ∧
    actionBadgeClass none = "pending" :=
  ⟨rfl, by decide, rfl, rfl, rfl⟩

/-- C6: every request the dashboard's API service issues against the
core — clients, metrics (with or without date filters), recent comments,
activity log, health, and the two direct App.tsx fetches — is an HTTP
GET with no request body. -/
theorem dashboard_read_only (baseUrl clientId startDate endDate : String) (limit : Nat) :
    ∀ req ∈ apiServiceRequests baseUrl clientId startDate endDate limit ++
        appFetchRequests clientId,
      req.method = HttpMethod.GET ∧ req.body = none := by
  intro req hreq
  simp only [apiServiceRequests, appFetchRequests, List.mem_append, List.mem_cons,
    List.not_mem_nil, or_false] at hreq
  rcases hreq with (h | h | h | h | h | h) | (h | h) <;> subst h <;> exact ⟨rfl, rfl⟩

/-- C6 witness: the concrete `/clients` request is a GET with no body. -/
theorem dashboard_read_only_witness :
    (apiCallRequest appApiBaseUrl "/clients").method = HttpMethod.GET ∧
    (apiCallRequest appApiBaseUrl "/clients").body = none :=
  dashboard_read_only appApiBaseUrl "demo_client_001" "" "" 50
    (apiCallRequest appApiBaseUrl "/clients")
    (by simp [apiServiceRequests])

/-- C7 counterexample: the audit table's access structure cannot serve a
per-client query ordered by timestamp — its only secondary index is
`TimestampIndex` keyed by (`action_type`, `timestamp`), `client_id` is
not among the table's declared attributes, the dashboard `ActivityLog`
interface has no `client_id` field, and the mock activity endpoint
returns the same data for every client. -/
theorem audit_query_client_filter_counterexample :
    servesOrderedQuery (audit_logs "orm-platform" "dev") "client_id" "timestamp" = false ∧
    "client_id" ∉ (audit_logs "orm-platform" "dev").attributes ∧
    "client_id" ∉ activityLogFields ∧
    getMockActivityLog "demo_client_001" 20 = getMockActivityLog "another_client" 20 :=
  ⟨rfl, by decide, by decide, rfl⟩

/-- C7 amended: the audit store's access structure serves ordered-by-
timestamp queries filtered by `action_type` (via the `TimestampIndex`
GSI), but not per-client queries: no key of the table or of any index is
`client_id`. -/
theorem audit_query_index_amended (project env : String) :
    servesOrderedQuery (audit_logs project env) "action_type" "timestamp" = true ∧
    servesOrderedQuery (audit_logs project env) "client_id" "timestamp" = false ∧
    (audit_logs project env).hash_key = "log_id" ∧
    (audit_logs project env).global_secondary_indexes =
      [{ name := "TimestampIndex", hash_key := "action_type", range_key := "timestamp" }] :=
  ⟨rfl, rfl, rfl, rfl⟩

/-- C8: every classification surfaced in the dashboard fixtures
satisfies the range invariant (toxicity in [0, 10], confidence in
[0, 100]; the enumerated fields are constrained by their types), and the
classifier's validation never persists a classification violating those
ranges. -/
theorem classification_range_invariant (clientId : String) (now : Int) :
    (∀ cm ∈ mockComments clientId, ∀ c, cm.classification = some c → validRange c) ∧
    (∀ cm ∈ appMockComments now, ∀ c, cm.classification = some c → appValidRange c) ∧
    (∀ r c, validateClassification r = some c → validRange c) := by
  refine ⟨?_, ?_, ?_⟩
  · intro cm hm c hc
    simp only [mockComments, List.mem_cons, List.not_mem_nil, or_false] at hm
    rcases hm with h | h | h | h | h <;> subst h <;>
      (injection hc with h2) <;> subst h2 <;> decide
  · intro cm hm c hc
    simp only [appMockComments, List.mem_cons, List.not_mem_nil, or_false] at hm
    rcases hm with h | h | h | h | h <;> subst h <;>
      (injection hc with h2) <;> subst h2 <;> decide
  · intro r c h
    obtain ⟨s, u, i, t, conf, rr, sa⟩ := r
    cases s <;> cases u <;> cases i <;> cases t <;> cases conf <;> cases rr <;> cases sa <;>
      (try simp only [validateClassification] at h) <;> try exact Option.noConfusion h
    split_ifs at h with hcond
    injection h with h2
    subst h2
    exact hcond

/-- C8 witness: the classification of fixture `comment_003` satisfies
the range invariant, and a concrete complete raw response within the
ranges is accepted by validation into a classification that satisfies
the invariant. -/
theorem classification_range_invariant_witness :
    validRange
      { sentiment := .negative, urgency := .high, intent := .complaint
      , toxicity_score := 6, confidence := 92
      , requires_response := true, suggested_action := .escalate } ∧
    validRange
      { sentiment := .positive, urgency := .low, intent := .general
      , toxicity_score := 0, confidence := 100
      , requires_response := false, suggested_action := .ignore } := by
  constructor
  · exact (classification_range_invariant "demo_client_001" 0).1
      (comment_003 "demo_client_001") (by simp [mockComments]) _ rfl
  · exact (classification_range_invariant "demo_client_001" 0).2.2
      { sentiment := some .positive, urgency := some .low, intent := some .general
      , toxicity_score := some 0, confidence := some 100
      , requires_response := some false, suggested_action := some .ignore } _ rfl

/-- C9: the ingestion EventBridge rule fires on a fixed schedule of once
every 5 minutes. -/
theorem ingestion_schedule_five_minutes (project env : String) :
    (comment_ingestion_schedule project env).schedule_expression = "rate(5 minutes)" ∧
    (comment_ingestion_schedule project env).description =
      "Trigger comment ingestion every 5 minutes" :=
  ⟨rfl, rfl⟩

/-- C10: `ApiService.apiCall` is total over failures — a rejected fetch,
an invalid-JSON body or a non-ok HTTP status all yield an `ApiResponse`
with status `error` and a message string, and an ok response yields the
parsed body, so every call yields a value of the `ApiResponse` shape. -/
theorem apiCall_total {T : Type} (o : FetchOutcome T) :
    (∀ msg, o = FetchOutcome.rejected msg → apiCall o = errorResponse msg) ∧
    (∀ r msg, o = FetchOutcome.resolved r → r.json = Except.error msg →
      apiCall o = errorResponse msg) ∧
    (∀ r d, o = FetchOutcome.resolved r → r.json = Except.ok d → r.ok = false →
      apiCall o = errorResponse
        (d.message.getD ("HTTP error! status: " ++ toString r.status))) ∧
    (∀ r d, o = FetchOutcome.resolved r → r.json = Except.ok d → r.ok = true →
      apiCall o = d) ∧
    (∀ msg : String, (@errorResponse T msg).status = ResponseStatus.error ∧
      (@errorResponse T msg).message = some msg) := by
  refine ⟨?_, ?_, ?_, ?_, fun msg => ⟨rfl, rfl⟩⟩
  · rintro msg rfl
    rfl
  · rintro r msg rfl hj
    simp [apiCall, hj]
  · rintro r d rfl hj hok
    simp [apiCall, hj, hok]
  · rintro r d rfl hj hok
    simp [apiCall, hj, hok]

/-- C10 witness: a concrete rejected fetch yields the error
`ApiResponse`, and a concrete ok response yields its parsed body. -/
theorem apiCall_total_witness :
    apiCall (@FetchOutcome.rejected Unit "Failed to fetch") =
      @errorResponse Unit "Failed to fetch" ∧
    apiCall (@FetchOutcome.resolved Unit
        { ok := true, status := 200, json := Except.ok { status := .success } }) =
      { status := ResponseStatus.success } := by
  constructor
  · exact (apiCall_total _).1 _ rfl
  · exact (apiCall_total _).2.2.2.1 _ _ rfl rfl rfl

end AgenticORM
